import Mathlib

deriving instance DecidableEq for Except

/-!
Shallow embedding of the race-coordination core of the async-race
application (`src/app/ui/pages/garage/garage.ts` and the `APIService`
class).  Times, distances and velocities are modelled as rationals;
`number`-typed JavaScript values that may become `NaN` or `Infinity`
(the animation progress `timeElapsed / duration`) are modelled by the
`JsNum` type with IEEE-style comparison semantics.  The live-animation
registry `activeAnimations : Map<number, number>` is modelled as an
association list with JavaScript `Map` semantics (`get`, `has`, `set`,
`delete`).
-/

namespace AsyncRace

/-- A JavaScript `number` as it occurs in the animation-progress
computation: either a finite rational, one of the two infinities, or
`NaN`. -/
inductive JsNum where
  | nan : JsNum
  | posInf : JsNum
  | negInf : JsNum
  | fin : ℚ → JsNum
deriving DecidableEq, Repr

/-- IEEE-754 division `a / b` for finite operands: division by zero
yields `NaN` (for `0 / 0`) or a signed infinity; otherwise the exact
rational quotient. -/
def jsDiv (a b : ℚ) : JsNum :=
  if b = 0 then
    if a = 0 then JsNum.nan else if 0 < a then JsNum.posInf else JsNum.negInf
  else JsNum.fin (a / b)

/-- IEEE comparison `x < c` for a finite right operand: any comparison
against `NaN` is false. -/
def jsLt (x : JsNum) (c : ℚ) : Bool :=
  match x with
  | JsNum.nan => false
  | JsNum.posInf => false
  | JsNum.negInf => true
  | JsNum.fin q => decide (q < c)

/-- IEEE comparison `x >= c` for a finite right operand: any comparison
against `NaN` is false. -/
def jsGe (x : JsNum) (c : ℚ) : Bool :=
  match x with
  | JsNum.nan => false
  | JsNum.posInf => true
  | JsNum.negInf => false
  | JsNum.fin q => decide (c ≤ q)

/-- IEEE multiplication `x * q` with a finite right operand. -/
def jsMul (x : JsNum) (q : ℚ) : JsNum :=
  match x with
  | JsNum.nan => JsNum.nan
  | JsNum.posInf =>
    if q = 0 then JsNum.nan else if 0 < q then JsNum.posInf else JsNum.negInf
  | JsNum.negInf =>
    if q = 0 then JsNum.nan else if 0 < q then JsNum.negInf else JsNum.posInf
  | JsNum.fin a => JsNum.fin (a * q)

/-- The `activeAnimations` registry: a JavaScript `Map<number, number>`
from car id to the id of the most recently scheduled animation frame. -/
abbrev AnimMap := List (Nat × Nat)

/-- JavaScript `Map.prototype.get`. -/
def mapGet : AnimMap → Nat → Option Nat
  | [], _ => none
  | (k, v) :: rest, key => if key = k then some v else mapGet rest key

/-- JavaScript `Map.prototype.has`. -/
def mapHas (m : AnimMap) (key : Nat) : Bool :=
  (mapGet m key).isSome

/-- JavaScript `Map.prototype.set`: replaces the value at an existing
key in place, otherwise appends the new entry. -/
def mapSet (m : AnimMap) (key v : Nat) : AnimMap :=
  if mapHas m key then
    m.map (fun p => if p.1 = key then (key, v) else p)
  else m ++ [(key, v)]

/-- JavaScript `Map.prototype.delete` (ignoring the returned Boolean). -/
def mapDelete (m : AnimMap) (key : Nat) : AnimMap :=
  m.filter (fun p => p.1 ≠ key)

theorem mapGet_delete_self (m : AnimMap) (k : Nat) :
    mapGet (mapDelete m k) k = none := by
  induction m with
  | nil => rfl
  | cons p rest ih =>
    by_cases hp : p.1 = k
    · simpa [mapDelete, List.filter_cons, hp] using ih
    · simpa [mapDelete, List.filter_cons, hp, mapGet, Ne.symm hp] using ih

theorem mapGet_delete_other (m : AnimMap) (k e : Nat) (h : e ≠ k) :
    mapGet (mapDelete m k) e = mapGet m e := by
  induction m with
  | nil => rfl
  | cons p rest ih =>
    by_cases hp : p.1 = k
    · simpa [mapDelete, List.filter_cons, hp, mapGet, h] using ih
    · by_cases hep : e = p.1
      · simp [mapDelete, List.filter_cons, hp, mapGet, hep]
      · simpa [mapDelete, List.filter_cons, hp, mapGet, hep] using ih

/-- A car record as returned by the remote garage store
(`CarDataFromApi` in `types/interfaces.ts`). -/
structure CarDataFromApi where
  id : Nat
  name : String
  color : String
deriving DecidableEq, Repr

/-- A winner record held by the remote store (`WinnerInformationFromApi`
in `types/interfaces.ts`): the car id, the accumulated win count and the
best time in seconds. -/
structure WinnerInformationFromApi where
  id : Nat
  wins : Nat
  time : ℚ
deriving DecidableEq, Repr

/-- Engine-start parameters returned by the remote engine endpoint
(`Engine` in `types/interfaces.ts`). -/
structure Engine where
  velocity : ℚ
  distance : ℚ
deriving DecidableEq, Repr

/-- The motion descriptor produced by `getReadyForRace`
(`CarAnimationOptions` in `types/interfaces.ts`, minus the DOM element
and the callback, which carry no data relevant to the verified
properties). -/
structure CarAnimationOptions where
  carId : Nat
  duration : ℚ
  distance : ℚ
deriving DecidableEq, Repr

/-- `Number(x.toFixed(2))`: rounding of a rational to two decimal
places, as applied by `handleCarFinish` to `timeElapsed / 1000`. -/
def toFixed2 (q : ℚ) : ℚ :=
  (round (q * 100) : ℚ) / 100

/-- The race-relevant mutable fields of the `Garage` class: the cached
car list `cars`, the live-animation registry `activeAnimations`, and
the per-session winner slot `currentWinnerId` / `winnerData`. -/
structure GarageState where
  cars : List CarDataFromApi
  activeAnimations : AnimMap
  currentWinnerId : Option Nat
  winnerData : Option (CarDataFromApi × ℚ)
deriving DecidableEq, Repr

/-- Result of one call to `Garage.handleCarFinish`: the state after the
call, whether this call elected the winner, the error thrown (if any),
the winner message shown (as the `(name, timeSec)` pair interpolated
into it), and the `(carId, timeSec)` argument of the triggered
`sendOrUpdateWinnerData` call (if any). -/
structure FinishResult where
  state : GarageState
  elected : Bool
  thrown : Option String
  messageShown : Option (String × ℚ)
  syncRequested : Option (Nat × ℚ)
deriving DecidableEq, Repr

/-- `Garage.handleCarFinish(carId, timeElapsed)`: returns early if a
winner is already recorded; otherwise records `carId` as the winner,
looks the car up in the cached list (throwing if absent — note the
winner slot is already consumed at that point), records the rounded
time, shows the winner message and triggers the winner-store
synchronization. -/
def handleCarFinish (s : GarageState) (carId : Nat) (timeElapsed : ℚ) :
    FinishResult :=
  if s.currentWinnerId.isSome then
    { state := s, elected := false, thrown := none,
      messageShown := none, syncRequested := none }
  else
    let s1 : GarageState := { s with currentWinnerId := some carId }
    match s.cars.find? (fun car => car.id == carId) with
    | none =>
      { state := s1, elected := true,
        thrown := some "Winner car data not found for ID",
        messageShown := none, syncRequested := none }
    | some winnerCarData =>
      let timeSec := toFixed2 (timeElapsed / 1000)
      { state := { s1 with winnerData := some (winnerCarData, timeSec) },
        elected := true, thrown := none,
        messageShown := some (winnerCarData.name, timeSec),
        syncRequested := some (carId, timeSec) }

/-- `Garage.sendOrUpdateWinnerData(carId, timeSec)` as a transformation
of the remote winners store (keyed by car id): fetch the existing
record via `getWinner`; if present, `updateWinner` with
`wins + 1` and `Math.min(existing.time, timeSec)`; if absent,
`createWinner` with `wins = 1` and `time = timeSec`. -/
def sendOrUpdateWinnerData (store : Nat → Option WinnerInformationFromApi)
    (carId : Nat) (timeSec : ℚ) : Nat → Option WinnerInformationFromApi :=
  match store carId with
  | some existingWinner =>
    fun i =>
      if i = carId then
        some { id := carId, wins := existingWinner.wins + 1,
               time := min existingWinner.time timeSec }
      else store i
  | none =>
    fun i =>
      if i = carId then
        some { id := carId, wins := 1, time := timeSec }
      else store i

/-- `Garage.stopExistingAnimation(cardId)`: if the registry holds a
(truthy) frame id for `cardId`, cancel that frame and then — exactly as
the source does — call `activeAnimations.delete(existingAnimationID)`,
i.e. delete the entry keyed by the *frame id*, not by `cardId`.
Returns the new registry and the frame id that was passed to
`cancelAnimationFrame`, if any. -/
def stopExistingAnimation (anims : AnimMap) (cardId : Nat) :
    AnimMap × Option Nat :=
  if mapHas anims cardId then
    match mapGet anims cardId with
    | some existingAnimationID =>
      if existingAnimationID ≠ 0 then
        (mapDelete anims existingAnimationID, some existingAnimationID)
      else (anims, none)
    | none => (anims, none)
  else (anims, none)

/-- `Garage.checkDriveStatus(carId)` after the health poll resolved with
`{success: driveSuccess}`: on failure, cancel the frame registered for
`carId` (if a truthy one exists) and delete `carId` from the registry.
Returns the new state and the cancelled frame id, if any. -/
def checkDriveStatus (s : GarageState) (carId : Nat) (driveSuccess : Bool) :
    GarageState × Option Nat :=
  if driveSuccess then (s, none)
  else
    match mapGet s.activeAnimations carId with
    | some failedAnimationId =>
      if failedAnimationId ≠ 0 then
        ({ s with activeAnimations := mapDelete s.activeAnimations carId },
         some failedAnimationId)
      else (s, none)
    | none => (s, none)

/-- Result of one invocation of the `step` callback inside
`Garage.animationCar`: the `deltaX` value written to the car's
transform, the `timeElapsed` passed to `onFinish` when the completion
branch ran, whether a next frame was requested, and the registry
afterwards. -/
structure StepResult where
  rendered : JsNum
  finished : Option ℚ
  rescheduled : Bool
  anims : AnimMap
deriving DecidableEq, Repr

/-- One invocation of the `step(timestamp)` closure of
`Garage.animationCar` for the car `carId`, with `startTime` already
recorded: computes `timeElapsed = timestamp - startTime`,
`progress = timeElapsed / duration` (JavaScript division — `NaN` when
both are zero), writes `deltaX = progress * distance`; if
`progress < 1` it re-schedules (receiving frame id `nextFrameId`) only
while the registry still holds `carId`, otherwise it deletes `carId`
from the registry and fires `onFinish(carId, timeElapsed)`. -/
def animationStep (anims : AnimMap) (carId : Nat) (duration distance : ℚ)
    (startTime timestamp : ℚ) (nextFrameId : Nat) : StepResult :=
  let timeElapsed := timestamp - startTime
  let progress := jsDiv timeElapsed duration
  let deltaX := jsMul progress distance
  if jsLt progress 1 then
    if mapHas anims carId then
      { rendered := deltaX, finished := none, rescheduled := true,
        anims := mapSet anims carId nextFrameId }
    else
      { rendered := deltaX, finished := none, rescheduled := false,
        anims := anims }
  else
    { rendered := deltaX, finished := some timeElapsed,
      rescheduled := false, anims := mapDelete anims carId }

/-- The very first frame of an animation: `startTime ??= timestamp`
makes `startTime = timestamp`, so `timeElapsed = 0`. -/
def animationFirstFrame (anims : AnimMap) (carId : Nat)
    (duration distance : ℚ) (timestamp : ℚ) (nextFrameId : Nat) :
    StepResult :=
  animationStep anims carId duration distance timestamp timestamp nextFrameId

/-- The ways the remote `drive` request of `APIService.driveEngine` can
turn out: the `fetch` call itself rejects (network/transport failure),
the server answers with a non-OK status, the server answers OK but the
body is not a `{success: boolean}` object, or the server answers OK
with a success flag. -/
inductive DriveResponse where
  | transportFailure : DriveResponse
  | httpError : DriveResponse
  | okInvalidBody : DriveResponse
  | okSuccess : Bool → DriveResponse
deriving DecidableEq, Repr

/-- `APIService.driveEngine(id)`: a rejected `fetch` is not caught and
propagates; a non-OK response returns `{ success: false }`; an OK
response whose body fails the `isSuccessObject` guard throws; otherwise
the body is returned. -/
def driveEngine : DriveResponse → Except String Bool
  | DriveResponse.transportFailure => Except.error "fetch rejected"
  | DriveResponse.httpError => Except.ok false
  | DriveResponse.okInvalidBody =>
    Except.error "Received invalid data format from API."
  | DriveResponse.okSuccess b => Except.ok b

/-- The remote store as seen by `APIService.deleteCar`: the set of car
ids present in the garage collection and in the winners collection.
A remote `DELETE` succeeds exactly when the addressed record exists
(the store answers 404 otherwise). -/
structure Store where
  garage : List Nat
  winners : List Nat
deriving DecidableEq, Repr

/-- `APIService.deleteCar(id)`: issues the garage `DELETE` (throwing on
failure), then unconditionally issues the winners `DELETE` and throws
if that one fails — without rolling back the already-performed garage
deletion.  Returns the outcome together with the store as the two
sequential remote calls left it. -/
def deleteCar (s : Store) (id : Nat) : Except String Unit × Store :=
  if id ∈ s.garage then
    let s1 : Store := { s with garage := s.garage.erase id }
    if id ∈ s1.winners then
      (Except.ok (), { s1 with winners := s1.winners.erase id })
    else
      (Except.error "Failed to delete car from winners", s1)
  else
    (Except.error "Failed to delete car", s)

/-- The `Except`-valued outcome of `Garage.getReadyForRace(carId)`:
throws when the car instance is missing from the page; then
`fetchingEngineParameters` (modelled by the oracle `engine`, `none`
meaning the remote start request failed) either throws — caught and
re-thrown as the preparation failure — or yields `{velocity, distance}`
from which `calculateAnimationDetails` computes
`duration = distance / velocity` and reads the pixel distance `dx`
between the car and the flag from the rendered rectangles. -/
def prepareCar (instances : List Nat) (engine : Nat → Option Engine)
    (dx : Nat → ℚ) (carId : Nat) : Except String CarAnimationOptions :=
  if carId ∈ instances then
    match engine carId with
    | some eng =>
      Except.ok { carId := carId, duration := eng.distance / eng.velocity,
                  distance := dx carId }
    | none => Except.error "Failed to prepare car for race"
  else Except.error "CarInstance ID does not exist"

/-- The `Promise.allSettled` post-processing loop of `handleRace`:
keep the values of the fulfilled preparations, drop the rejected
ones. -/
def collectFulfilled (results : List (Except String CarAnimationOptions)) :
    List CarAnimationOptions :=
  results.filterMap (fun r =>
    match r with
    | Except.ok v => some v
    | Except.error _ => none)

/-- `Garage.initiateAnimations(carsReadyToAnimate)`: for each prepared
car call `animationCar`, which invokes `requestAnimationFrame` —
modelled by a counter handing out the strictly positive frame ids
`frameCounter + 1, frameCounter + 2, …` — and, when the returned id is
truthy, register it and record the car as started.  Returns the
registry, the counter and the started-car list. -/
def initiateAnimations (anims : AnimMap) (frameCounter : Nat) :
    List CarAnimationOptions → AnimMap × Nat × List Nat
  | [] => (anims, frameCounter, [])
  | opt :: rest =>
    let animationId := frameCounter + 1
    if animationId ≠ 0 then
      let r := initiateAnimations (mapSet anims opt.carId animationId)
        animationId rest
      (r.1, r.2.1, opt.carId :: r.2.2)
    else
      initiateAnimations anims frameCounter rest

/-- `Garage.handleRace()`: throws on an empty page; otherwise prepares
every car of the page concurrently (`carIds.map` + `Promise.allSettled`
— the `Except` outcome of each preparation depends only on that car, so
the per-car registry stops, which the preparation results never read,
are folded separately in source order), keeps the fulfilled
preparations and starts their animations.  Returns the final registry
and the list of cars whose animation started. -/
def handleRace (anims0 : AnimMap) (frameCounter : Nat)
    (instances : List Nat) (engine : Nat → Option Engine) (dx : Nat → ℚ) :
    Except String (AnimMap × List Nat) :=
  if instances.isEmpty then
    Except.error "No cars on the page to start race."
  else
    let results := instances.map (prepareCar instances engine dx)
    let animsStopped := instances.foldl
      (fun a cid =>
        (stopExistingAnimation (stopExistingAnimation a cid).1 cid).1)
      anims0
    let r := initiateAnimations animsStopped frameCounter
      (collectFulfilled results)
    Except.ok (r.1, r.2.2)

theorem initiateAnimations_started (anims : AnimMap) (fc : Nat)
    (ready : List CarAnimationOptions) :
    (initiateAnimations anims fc ready).2.2
      = ready.map (fun o => o.carId) := by
  induction ready generalizing anims fc with
  | nil => rfl
  | cons opt rest ih =>
    simp [initiateAnimations, ih]

theorem collectFulfilled_prepare (instances : List Nat)
    (engine : Nat → Option Engine) (dx : Nat → ℚ) :
    ∀ l : List Nat, (∀ c ∈ l, c ∈ instances) →
      (collectFulfilled (l.map (prepareCar instances engine dx))).map
          (fun o => o.carId)
        = l.filter (fun c => (engine c).isSome) := by
  intro l
  induction l with
  | nil => intro _; rfl
  | cons c rest ih =>
    intro h
    have hc : c ∈ instances := h c (List.mem_cons_self _ _)
    have hrest : ∀ x ∈ rest, x ∈ instances :=
      fun x hx => h x (List.mem_cons_of_mem _ hx)
    have ih2 := ih hrest
    simp only [collectFulfilled, List.filterMap_map] at ih2 ⊢
    cases he : engine c with
    | none =>
      simp [prepareCar, hc, he, List.filter_cons, ih2]
    | some eng =>
      simp [prepareCar, hc, he, List.filter_cons, ih2]

/-! Concrete objects used by the witness theorems. -/

/-- A concrete car for witness instantiation. -/
def demoCar : CarDataFromApi := { id := 1, name := "Tesla", color := "red" }

/-- A concrete garage state, before any finish event, whose cached car
list holds exactly `demoCar`. -/
def demoState : GarageState :=
  { cars := [demoCar], activeAnimations := [],
    currentWinnerId := none, winnerData := none }

/-- The empty remote winners store. -/
def emptyWinnerStore : Nat → Option WinnerInformationFromApi := fun _ => none

/-- A concrete engine oracle: car 1 starts, every other car's engine
request fails. -/
def demoEngine : Nat → Option Engine :=
  fun c => if c = 1 then some { velocity := 2, distance := 10 } else none

/-- A concrete pixel-distance oracle. -/
def demoDx : Nat → ℚ := fun _ => 500

/-- A concrete garage state with two cars animating (cars 4 and 5). -/
def demoDriveState : GarageState :=
  { cars := [], activeAnimations := [(4, 9), (5, 7)],
    currentWinnerId := none, winnerData := none }

/-! Claim theorems. -/

/-- C1: within one race session the winner is elected at most once: the
first `handleCarFinish` call (with the car present in the cached list)
elects the winner, records its id and rounded elapsed time, and every
subsequent call in the same session is non-electing and leaves the
whole winner state unchanged. -/
theorem handleCarFinish_winner_once (s : GarageState) (carId : Nat) (t : ℚ)
    (c : CarDataFromApi)
    (hfirst : s.currentWinnerId = none)
    (hfind : s.cars.find? (fun car => car.id == carId) = some c) :
    (handleCarFinish s carId t).elected = true ∧
    (handleCarFinish s carId t).state.currentWinnerId = some carId ∧
    (handleCarFinish s carId t).state.winnerData
      = some (c, toFixed2 (t / 1000)) ∧
    ∀ (carId2 : Nat) (t2 : ℚ),
      (handleCarFinish (handleCarFinish s carId t).state carId2 t2).elected
          = false ∧
      (handleCarFinish (handleCarFinish s carId t).state carId2 t2).state
          = (handleCarFinish s carId t).state := by
  simp [handleCarFinish, hfirst, hfind]

theorem handleCarFinish_winner_once_witness :
    (handleCarFinish demoState 1 2000).elected = true ∧
    (handleCarFinish demoState 1 2000).state.currentWinnerId = some 1 ∧
    (handleCarFinish (handleCarFinish demoState 1 2000).state 2 5).elected
      = false := by
  have h := handleCarFinish_winner_once demoState 1 2000 demoCar rfl rfl
  exact ⟨h.1, h.2.1, (h.2.2.2 2 5).1⟩

/-- C2: `sendOrUpdateWinnerData` fetches the existing record; absent,
it creates `{wins := 1, time := timeSec}`; present, it writes back
`{wins := existing.wins + 1, time := min existing.time timeSec}`. -/
theorem sendOrUpdateWinnerData_spec
    (store : Nat → Option WinnerInformationFromApi) (carId : Nat) (t : ℚ) :
    (store carId = none →
      sendOrUpdateWinnerData store carId t carId
        = some { id := carId, wins := 1, time := t }) ∧
    (∀ w, store carId = some w →
      sendOrUpdateWinnerData store carId t carId
        = some { id := carId, wins := w.wins + 1, time := min w.time t }) := by
  constructor
  · intro h
    simp [sendOrUpdateWinnerData, h]
  · intro w h
    simp [sendOrUpdateWinnerData, h]

theorem sendOrUpdateWinnerData_spec_witness :
    sendOrUpdateWinnerData emptyWinnerStore 5 12 5
      = some { id := 5, wins := 1, time := 12 } :=
  (sendOrUpdateWinnerData_spec emptyWinnerStore 5 12).1 rfl

/-- C3 counterexample: applying the same race result (car 5, 12 s)
twice to the empty store does not yield the record that a single
application yields — the wins count is double-counted. -/
theorem sendOrUpdateWinnerData_twice_ne_once :
    sendOrUpdateWinnerData (sendOrUpdateWinnerData emptyWinnerStore 5 12) 5 12 5
      ≠ sendOrUpdateWinnerData emptyWinnerStore 5 12 5 := by
  decide

/-- C3 amended: the merge is not idempotent in the wins count — a
second application of the same `(carId, timeSec)` result increments
`wins` once more, while the best time is unchanged by the second
application. -/
theorem sendOrUpdateWinnerData_second_application
    (store : Nat → Option WinnerInformationFromApi) (carId : Nat) (t : ℚ) :
    sendOrUpdateWinnerData (sendOrUpdateWinnerData store carId t) carId t carId
      = Option.map
          (fun w => { id := carId, wins := w.wins + 1, time := w.time })
          (sendOrUpdateWinnerData store carId t carId) := by
  cases hs : store carId with
  | none => simp [sendOrUpdateWinnerData, hs, min_self]
  | some e => simp [sendOrUpdateWinnerData, hs, min_assoc, min_self]

/-- C4: evaluation of the code at the failing input.  With registry
`{car 5 ↦ frame 7}`, `stopExistingAnimation(5)` cancels frame 7 but
deletes the registry key 7 instead of 5, so car 5's stale entry
survives; and when frame id 7 coincides with car 7's id, car 7's entry
is deleted instead. -/
theorem stopExistingAnimation_wrong_key_eval :
    (stopExistingAnimation [(5, 7)] 5).1 = [(5, 7)] ∧
    (stopExistingAnimation [(5, 7)] 5).2 = some 7 ∧
    (stopExistingAnimation [(5, 7), (7, 9)] 5).1 = [(5, 7)] := by
  decide

/-- C5: `handleRace` on a non-empty page starts animations for exactly
the cars whose engine-start preparation succeeded — one car's
preparation failure propagates out of `getReadyForRace` as an error and
neither aborts the race nor alters which other cars start. -/
theorem handleRace_isolates_failures (anims0 : AnimMap) (fc : Nat)
    (instances : List Nat) (engine : Nat → Option Engine) (dx : Nat → ℚ)
    (h : instances ≠ []) :
    (handleRace anims0 fc instances engine dx).map (fun r => r.2)
      = Except.ok (instances.filter (fun c => (engine c).isSome)) ∧
    ∀ c ∈ instances, engine c = none →
      prepareCar instances engine dx c
        = Except.error "Failed to prepare car for race" := by
  constructor
  · have hne : instances.isEmpty = false := by
      cases instances with
      | nil => exact absurd rfl h
      | cons a l => rfl
    simp only [handleRace, hne, Bool.false_eq_true, if_false, Except.map]
    rw [initiateAnimations_started,
      collectFulfilled_prepare instances engine dx instances (fun c hc => hc)]
  · intro c hc hce
    simp [prepareCar, hc, hce]

theorem handleRace_isolates_failures_witness :
    (handleRace [] 0 [1, 2] demoEngine demoDx).map (fun r => r.2)
      = Except.ok ([1, 2].filter (fun c => (demoEngine c).isSome)) :=
  (handleRace_isolates_failures [] 0 [1, 2] demoEngine demoDx (by decide)).1

/-- C6: a failed health poll for car `carId` cancels and removes exactly
that car's registry entry; every other car's entry, the cached car list
and the session winner state are untouched. -/
theorem checkDriveStatus_isolates_entity (s : GarageState) (carId a : Nat)
    (hget : mapGet s.activeAnimations carId = some a) (ha : a ≠ 0) :
    (checkDriveStatus s carId false).2 = some a ∧
    mapGet (checkDriveStatus s carId false).1.activeAnimations carId
      = none ∧
    (∀ e, e ≠ carId →
      mapGet (checkDriveStatus s carId false).1.activeAnimations e
        = mapGet s.activeAnimations e) ∧
    (checkDriveStatus s carId false).1.currentWinnerId
      = s.currentWinnerId ∧
    (checkDriveStatus s carId false).1.winnerData = s.winnerData ∧
    (checkDriveStatus s carId false).1.cars = s.cars := by
  refine ⟨?_, ?_, ?_, ?_, ?_, ?_⟩ <;>
    simp [checkDriveStatus, hget, ha, mapGet_delete_self]
  intro e he
  simp [mapGet_delete_other _ _ _ he]

theorem checkDriveStatus_isolates_entity_witness :
    (checkDriveStatus demoDriveState 5 false).2 = some 7 ∧
    mapGet (checkDriveStatus demoDriveState 5 false).1.activeAnimations 5
      = none ∧
    mapGet (checkDriveStatus demoDriveState 5 false).1.activeAnimations 4
      = mapGet demoDriveState.activeAnimations 4 := by
  have h := checkDriveStatus_isolates_entity demoDriveState 5 7 rfl
    (by decide)
  exact ⟨h.1, h.2.1, h.2.2.1 4 (by decide)⟩

/-- C7 counterexample: with `duration = 0` the first frame's fraction is
`0 / 0 = NaN`, which does *not* satisfy the claimed completion
condition `fraction >= 1`; the code nevertheless completes on that
frame (with elapsed time 0 and no rescheduling) because its test is
`progress < 1`, which `NaN` also fails. -/
theorem zeroDuration_fraction_not_ge_one :
    jsDiv 0 0 = JsNum.nan ∧
    jsGe (jsDiv 0 0) 1 = false ∧
    (animationFirstFrame [(1, 2)] 1 0 100 0 3).finished = some 0 ∧
    (animationFirstFrame [(1, 2)] 1 0 100 0 3).rescheduled = false := by
  refine ⟨rfl, rfl, ?_, ?_⟩ <;>
    norm_num [animationFirstFrame, animationStep, jsDiv, jsLt, jsMul]

/-- C7 amended: for `duration = 0` the first frame computes
`fraction = 0 / 0 = NaN` (the division is total, in IEEE semantics),
which fails the code's `progress < 1` test, so the completion branch
runs on the very first frame: the car is deregistered, the completion
callback receives elapsed time 0, no further frame is scheduled, and
the single transform write of that frame is `NaN` rather than any
finite intermediate position. -/
theorem animationFirstFrame_zero_duration (anims : AnimMap) (carId : Nat)
    (distance timestamp : ℚ) (nextFrameId : Nat) :
    (animationFirstFrame anims carId 0 distance timestamp
        nextFrameId).finished = some 0 ∧
    (animationFirstFrame anims carId 0 distance timestamp
        nextFrameId).rescheduled = false ∧
    (animationFirstFrame anims carId 0 distance timestamp
        nextFrameId).anims = mapDelete anims carId ∧
    (animationFirstFrame anims carId 0 distance timestamp
        nextFrameId).rendered = JsNum.nan := by
  refine ⟨?_, ?_, ?_, ?_⟩ <;>
    simp [animationFirstFrame, animationStep, jsDiv, jsLt, jsMul, sub_self]

/-- C8 counterexample: `driveEngine` is not total in the claimed sense —
a transport failure (a rejected `fetch`) propagates as a raised error
instead of degrading to `{success: false}`, and an OK response with an
invalid body also throws. -/
theorem driveEngine_throws_on_transport_failure :
    driveEngine DriveResponse.transportFailure
      = Except.error "fetch rejected" ∧
    driveEngine DriveResponse.transportFailure ≠ Except.ok false ∧
    driveEngine DriveResponse.okInvalidBody
      = Except.error "Received invalid data format from API." := by
  exact ⟨rfl, by decide, rfl⟩

/-- C8 amended: only a non-OK HTTP response degrades to
`{success: false}`; an OK response with a valid body is returned as a
value, while a transport failure and an OK response with an invalid
body both propagate as raised errors. -/
theorem driveEngine_error_modes :
    driveEngine DriveResponse.httpError = Except.ok false ∧
    (∀ b, driveEngine (DriveResponse.okSuccess b) = Except.ok b) ∧
    driveEngine DriveResponse.transportFailure
      = Except.error "fetch rejected" ∧
    driveEngine DriveResponse.okInvalidBody
      = Except.error "Received invalid data format from API." :=
  ⟨rfl, fun _ => rfl, rfl, rfl⟩

/-- C9: `deleteCar` deletes the garage record and then unconditionally
issues the winners delete; when no winner record exists the call
errors, yet the garage deletion has already taken effect and is not
rolled back. -/
theorem deleteCar_partial_deletion (s : Store) (id : Nat)
    (hg : id ∈ s.garage) (hw : id ∉ s.winners) :
    (deleteCar s id).1 = Except.error "Failed to delete car from winners" ∧
    (deleteCar s id).2.garage = s.garage.erase id ∧
    (deleteCar s id).2.winners = s.winners := by
  simp [deleteCar, hg, hw]

theorem deleteCar_partial_deletion_witness :
    (deleteCar { garage := [1, 2], winners := [2] } 1).1
      = Except.error "Failed to delete car from winners" ∧
    (deleteCar { garage := [1, 2], winners := [2] } 1).2.garage
      = [1, 2].erase 1 ∧
    (deleteCar { garage := [1, 2], winners := [2] } 1).2.winners = [2] :=
  deleteCar_partial_deletion { garage := [1, 2], winners := [2] } 1
    (by decide) (by decide)

/-- C10: when a finish is reported for a car id absent from the cached
list, `handleCarFinish` first consumes the session winner slot and only
then throws: the error path leaves `currentWinnerId = some carId`
(never restored), records no time, shows no message, persists nothing,
and every later finish call in the session is non-electing. -/
theorem handleCarFinish_unknown_car (s : GarageState) (carId : Nat) (t : ℚ)
    (hfirst : s.currentWinnerId = none)
    (hfind : s.cars.find? (fun car => car.id == carId) = none) :
    (handleCarFinish s carId t).thrown.isSome = true ∧
    (handleCarFinish s carId t).state.currentWinnerId = some carId ∧
    (handleCarFinish s carId t).state.winnerData = s.winnerData ∧
    (handleCarFinish s carId t).messageShown = none ∧
    (handleCarFinish s carId t).syncRequested = none ∧
    ∀ (carId2 : Nat) (t2 : ℚ),
      (handleCarFinish (handleCarFinish s carId t).state carId2 t2).elected
        = false := by
  simp [handleCarFinish, hfirst, hfind]

theorem handleCarFinish_unknown_car_witness :
    (handleCarFinish demoState 3 2000).thrown.isSome = true ∧
    (handleCarFinish demoState 3 2000).state.currentWinnerId = some 3 ∧
    (handleCarFinish (handleCarFinish demoState 3 2000).state 1 5).elected
      = false := by
  have h := handleCarFinish_unknown_car demoState 3 2000 rfl rfl
  exact ⟨h.1, h.2.1, h.2.2.2.2.2 1 5⟩

end AsyncRace
